import Mathlib

/-!
Verification of the fxa-auth-server authentication core against its
natural-language specification.

The embedding covers three source files:
* `lib/routes/totp.js` — the TOTP lifecycle route handlers,
* the server bootstrap file (`makeCredentialFn`, `nonceCheck`),
* `lib/routes/utils/oauth-mint.js` — the OAuth assertion minter.

Route handlers are embedded as pure functions from the request context and
the (per-user) Token Store slot to a result, the updated store slot, and a
trace of collaborator events in the order the handler issues them.
-/

namespace FxA

/-- A persisted TotpToken row, keyed by uid (`db.createTotpToken(uid, secret, 0)`
stores the secret with epoch 0 and both flags false). -/
structure TotpToken where
  sharedSecret : String
  verified : Bool
  enabled : Bool
  epoch : Nat
deriving Repr, DecidableEq

/-- The resolved session principal (`request.auth.credentials`): the fields the
TOTP handlers read. `tokenVerificationId` is nullable. -/
structure SessionToken where
  id : String
  uid : String
  email : String
  tokenVerificationId : Option String
deriving Repr, DecidableEq

/-- Collaborator events, in the order a handler issues them. -/
inductive Event where
  | customsCheck (action : String)
  | dbCreateTotpToken
  | dbGetTotpToken
  | dbUpdateTotpToken
  | dbDeleteTotpToken
  | dbVerifyTokensWithMethod (tokenId : String) (method : String)
  | metricsEvent (name : String)
deriving Repr, DecidableEq

/-- Typed failures raised by the handlers (`errors.unverifiedSession()`,
a customs rejection, `TOTP_TOKEN_NOT_FOUND` from the store). -/
inductive Err where
  | unverifiedSession
  | rateLimited
  | totpTokenNotFound
deriving Repr, DecidableEq

/-- The per-user Token Store slot for the TotpToken row (at most one per uid). -/
abbrev TotpStore := Option TotpToken

/-- Embeds `db.totpToken(uid)`: resolves with the stored row, rejects with the
`TOTP_TOKEN_NOT_FOUND` errno when absent (the exists handler matches exactly
this errno at totp.js:166). -/
def dbTotpToken (store : TotpStore) : Except Err TotpToken :=
  match store with
  | some t => .ok t
  | none => .error .totpTokenNotFound

/-- Modelled from the spec: `db.deleteTotpToken(uid)` lives in the repository's
db layer, which is not among the provided source files. Per the spec,
"deleting a non-existent token is not an error from this operation's
perspective, though the Token Store may signal not-found, which this operation
treats as success" — so the delete resolves successfully whether or not a row
exists, leaving the slot empty. -/
def dbDeleteTotpToken (_store : TotpStore) : Except Err Unit × TotpStore :=
  (.ok (), none)

instance {ε α : Type} [DecidableEq ε] [DecidableEq α] : DecidableEq (Except ε α)
  | .error a, .error b => decidable_of_iff (a = b) (by simp)
  | .error _, .ok _ => .isFalse (by simp)
  | .ok _, .error _ => .isFalse (by simp)
  | .ok a, .ok b => decidable_of_iff (a = b) (by simp)

/-- The outcome of one handler run: the value handed to `reply` (or the typed
failure), the Token Store slot afterwards, and the ordered event trace. -/
structure RouteRun (α : Type) where
  result : Except Err α
  store : TotpStore
  trace : List Event
deriving Repr, DecidableEq

/-- Handler of `POST /totp/create` (totp.js:51-93).
`customs.check(request, 'totpCreate')` runs first (its failure, modelled by
`customsOk = false`, rejects the whole chain); then `createTotpToken` throws
`unverifiedSession` when the principal carries a `tokenVerificationId`, else
persists a fresh row `verified=false, enabled=false`; then `emitMetrics`; then
the response `\x7bqrCodeUrl, secret\x7d` is built (`qr` stands for the external
`qrcode.toDataURL` of the otpauth key URI). -/
def createRoute (customsOk : Bool) (qr : String → String)
    (sessionToken : SessionToken) (secret : String) (store : TotpStore) :
    RouteRun (String × String) :=
  if ¬ customsOk then
    ⟨.error .rateLimited, store, [.customsCheck "totpCreate"]⟩
  else if (sessionToken.tokenVerificationId).isSome then
    ⟨.error .unverifiedSession, store, [.customsCheck "totpCreate"]⟩
  else
    ⟨.ok (qr secret, secret),
      some { sharedSecret := secret, verified := false, enabled := false, epoch := 0 },
      [.customsCheck "totpCreate", .dbCreateTotpToken, .metricsEvent "totpToken.created"]⟩

/-- Handler of `POST /totp/destroy` (totp.js:104-122).
`customs.check(request, 'totpDestroy')` first; then `deleteTotpToken` throws
`unverifiedSession` on a pending principal, else `db.deleteTotpToken(uid)`;
on success the reply is the empty object. -/
def destroyRoute (customsOk : Bool) (sessionToken : SessionToken)
    (store : TotpStore) : RouteRun Unit :=
  if ¬ customsOk then
    ⟨.error .rateLimited, store, [.customsCheck "totpDestroy"]⟩
  else if (sessionToken.tokenVerificationId).isSome then
    ⟨.error .unverifiedSession, store, [.customsCheck "totpDestroy"]⟩
  else
    let d := dbDeleteTotpToken store
    ⟨d.1, d.2, [.customsCheck "totpDestroy", .dbDeleteTotpToken]⟩

/-- Handler of `GET /totp/exists` (totp.js:137-173). No customs check is issued.
`getTotpToken` throws `unverifiedSession` on a pending principal, else fetches
the row: a `TOTP_TOKEN_NOT_FOUND` rejection is swallowed (`exists=false`); a
row with `verified=false` is deleted as a side effect and reported
`exists=false`; a verified row is reported `exists=true`. The reply carries
the boolean. -/
def existsRoute (sessionToken : SessionToken) (store : TotpStore) :
    RouteRun Bool :=
  if (sessionToken.tokenVerificationId).isSome then
    ⟨.error .unverifiedSession, store, []⟩
  else
    match dbTotpToken store with
    | .error .totpTokenNotFound => ⟨.ok false, store, [.dbGetTotpToken]⟩
    | .error e => ⟨.error e, store, [.dbGetTotpToken]⟩
    | .ok token =>
      if ¬ token.verified then
        let d := dbDeleteTotpToken store
        ⟨d.1.map (fun _ => false), d.2, [.dbGetTotpToken, .dbDeleteTotpToken]⟩
      else
        ⟨.ok true, store, [.dbGetTotpToken]⟩

/-- Handler of `POST /session/verify/totp` (totp.js:190-251).
`customs.check(request, 'sessionVerifyTotp')` first; `getTotpToken` reads
`sharedSecret` and `verified` (an absent row rejects and nothing catches it);
`verifyTotpCode` sets `isValidCode = otplib.authenticator.check(code, sharedSecret)`
(the checker is the `check` parameter); `verifyTotpToken` updates the row to
`verified=true, enabled=true` only when the code is valid and the row was not
yet verified; `verifySession` calls `db.verifyTokensWithMethod(sessionToken.id,
'totp-2fa')` only when the code is valid and the principal carries a
`tokenVerificationId`; `emitMetrics` then reports verified/unverified; the
reply is `\x7bsuccess: isValidCode\x7d`. -/
def verifyRoute (customsOk : Bool) (check : String → String → Bool)
    (sessionToken : SessionToken) (code : String) (store : TotpStore) :
    RouteRun Bool :=
  if ¬ customsOk then
    ⟨.error .rateLimited, store, [.customsCheck "sessionVerifyTotp"]⟩
  else
    match dbTotpToken store with
    | .error e => ⟨.error e, store, [.customsCheck "sessionVerifyTotp", .dbGetTotpToken]⟩
    | .ok token =>
      let isValidCode := check code token.sharedSecret
      let store' :=
        if isValidCode ∧ ¬ token.verified then
          some { token with verified := true, enabled := true }
        else store
      let updateEvents : List Event :=
        if isValidCode ∧ ¬ token.verified then [.dbUpdateTotpToken] else []
      let sessionEvents : List Event :=
        if isValidCode ∧ (sessionToken.tokenVerificationId).isSome then
          [.dbVerifyTokensWithMethod sessionToken.id "totp-2fa"]
        else []
      let metricsName := if isValidCode then "totpToken.verified" else "totpToken.unverified"
      ⟨.ok isValidCode, store',
        [.customsCheck "sessionVerifyTotp", .dbGetTotpToken]
          ++ updateEvents ++ sessionEvents ++ [.metricsEvent metricsName]⟩

/-! ## Credential resolver (`makeCredentialFn`) and `nonceCheck` -/

/-- A generic bearer token as the credential functions see it: the fields read
by `makeCredentialFn` (`token.expired(Date.now())`, `token.tokenTypeID`,
`token.uid`). `expiresAt` is nullable: some kinds never expire. -/
structure AuthToken where
  id : String
  uid : String
  tokenTypeID : String
  expiresAt : Option Int
deriving Repr, DecidableEq

/-- Modelled from the spec: the token classes (carrying `expired()`) are not
among the provided source files; per the spec the resolver "compare[s] `now`
against the token's expiry", failing when the expiry time is before the
current time, and tokens with a null expiry never expire. -/
def AuthToken.expired (t : AuthToken) (now : Int) : Bool :=
  match t.expiresAt with
  | some e => e < now
  | none => false

/-- Modelled from the spec: `HEX_STRING` from `routes/validators` is not among
the provided source files; per the spec the token id "must match a fixed-length
hexadecimal pattern" (session token ids are 32 bytes, i.e. 64 hex digits). -/
def hexStringTest (s : String) : Bool :=
  s.length == 64 && s.toList.all (fun c => c.isDigit
    || ('a' ≤ c && c ≤ 'f') || ('A' ≤ c && c ≤ 'F'))

/-- What `makeCredentialFn` passes to the hapi-auth-hawk callback `cb`:
`cb(null, null)` (credentials not found), `cb(err)` with a typed failure, or
`cb(null, token)` with the resolved principal. -/
inductive CredOutcome where
  | notFoundNull
  | invalidTokenErr (message : String)
  | ok (t : AuthToken)
deriving Repr, DecidableEq

/-- Collaborator events issued while resolving a credential. -/
inductive CredEvent where
  | dbGetToken (id : String)
  | pruneSessionTokens (uid : String)
deriving Repr, DecidableEq

/-- One run of the credential function: the callback outcome plus the trace. -/
structure CredRun where
  outcome : CredOutcome
  trace : List CredEvent
deriving Repr, DecidableEq

/-- Embeds `makeCredentialFn(dbGetFn)` applied to an id (server bootstrap file,
lines 79-102). An id failing `HEX_STRING.test` yields `cb(null, null)` at once
("not found") with no store access. Otherwise `dbGetFn(id)` runs: a store
rejection (`lookupErr`, the db layer's own failure for a missing id) flows to
`cb` unchanged. A fetched token that is expired at `now` yields the
`invalidToken('The authentication token has expired')` failure; when its
`tokenTypeID` is `'sessionToken'` the store's `pruneSessionTokens` is attempted
first and its outcome (`pruneOk`) is ignored — the same failure is returned
whether pruning succeeds or fails. An unexpired token resolves as the
principal. -/
def makeCredentialFn (now : Int) (lookup : String → Option AuthToken)
    (lookupErr : CredOutcome) (pruneOk : Bool) (id : String) : CredRun :=
  if ¬ hexStringTest id then
    ⟨.notFoundNull, []⟩
  else
    match lookup id with
    | none => ⟨lookupErr, [.dbGetToken id]⟩
    | some token =>
      if token.expired now then
        if token.tokenTypeID == "sessionToken" then
          let _ := pruneOk
          ⟨.invalidTokenErr "The authentication token has expired",
            [.dbGetToken id, .pruneSessionTokens token.uid]⟩
        else
          ⟨.invalidTokenErr "The authentication token has expired", [.dbGetToken id]⟩
      else
        ⟨.ok token, [.dbGetToken id]⟩

/-- Modelled from the spec: the caller-visible error class. The translation of
handler outcomes to HTTP responses (hapi-auth-hawk turning `cb(null, null)`
into an authentication failure, and the repository's error-translation
boundary) is not among the provided source files; per the spec, a missing,
expired or malformed credential is "caller-visible as a generic authentication
failure" and a malformed id "never surfaces a format error". -/
inductive CallerClass where
  | authFailure
  | formatError
  | success
deriving Repr, DecidableEq

/-- Modelled from the spec: how each callback outcome surfaces to the caller.
`cb(null, null)` and `cb(invalidToken)` are both mapped by the framework and
the error-translation boundary (outside the provided sources) to the generic
authentication failure. -/
def callerClass : CredOutcome → CallerClass
  | .notFoundNull => .authFailure
  | .invalidTokenErr _ => .authFailure
  | .ok _ => .success

/-- What one invocation of the hawk `nonceFunc` produces: the skew value it
logs and the argument it passes to the continuation `cb` (`none` = success). -/
structure NonceRun where
  loggedSkew : ℚ
  callbackErr : Option String
deriving Repr, DecidableEq

/-- Embeds `nonceCheck(key, nonce, ts, cb)` (server bootstrap file, lines 69-76):
computes `skew = Date.now()/1000 - ts`, logs it, and unconditionally calls
`cb()` with no error — no nonce cache is consulted or written. -/
def nonceCheck (now : Int) (_key _nonce : String) (ts : Int) : NonceRun :=
  { loggedSkew := (now : ℚ) / 1000 - (ts : ℚ), callbackErr := none }

/-! ## Assertion minter (`lib/routes/utils/oauth-mint.js`) -/

/-- Assertion lifetime: 25 years in ms (oauth-mint.js:14). -/
def ASSERTION_LIFETIME : Int := 1000 * 3600 * 24 * 365 * 25

/-- Certificate lifetime: 5 hours in ms (oauth-mint.js:15). -/
def CERT_LIFETIME : Int := 1000 * 3600 * 5

/-- Fixed desktop client id (oauth-mint.js:17). -/
def CLIENT_ID : String := "5882386c6d801776"

/-- The fields of the session principal read by `generateOAuthAssertion`:
`uid` (hex-encoded), `verifierSetAt`, `lastAuthAt()`, `email`. -/
structure MintSessionToken where
  uidHex : String
  verifierSetAt : Int
  lastAuthAt : Int
  email : String
deriving Repr, DecidableEq

/-- The request body sent to `signer.sign` (oauth-mint.js:36-43). -/
structure SignRequest where
  publicKey : String
  email : String
  domain : String
  duration : Int
  generation : Int
  lastAuthAt : Int
  verifiedEmail : String
deriving Repr, DecidableEq

/-- The external Signer's reply: the certificate string, together with the
expiry instant the signed certificate asserts. -/
structure SignedCert where
  cert : String
  certExp : Int
deriving Repr, DecidableEq

/-- The claims of the locally signed bearer assertion (oauth-mint.js:45-48). -/
structure AssertionClaims where
  exp : Int
  aud : String
deriving Repr, DecidableEq

/-- The sign request `generateOAuthAssertion` builds from the session token:
synthetic email `<uidHex>@<domain>`, duration `CERT_LIFETIME`, generation from
`verifierSetAt`, `lastAuthAt`, and the session email as `verifiedEmail`. -/
def mintSignRequest (publicKey domain : String) (st : MintSessionToken) :
    SignRequest :=
  { publicKey := publicKey
    email := st.uidHex ++ "@" ++ domain
    domain := domain
    duration := CERT_LIFETIME
    generation := st.verifierSetAt
    lastAuthAt := st.lastAuthAt
    verifiedEmail := st.email }

/-- The claims `generateOAuthAssertion` passes to `secretKey.sign`:
`exp = Date.now() + ASSERTION_LIFETIME`, `aud = <oauthUrl>/v1`. -/
def mintAssertionClaims (now : Int) (oauthUrl : String) : AssertionClaims :=
  { exp := now + ASSERTION_LIFETIME, aud := oauthUrl ++ "/v1" }

/-- Embeds `generateOAuthAssertion(sessionToken)` (oauth-mint.js:35-51): sends the
sign request to the Signer (`sign`), independently signs the long-lived
assertion claims with the local secret key (`secretKeySign`), and concatenates
`cert ~ assertion` into the bundle string. -/
def generateOAuthAssertion (now : Int) (sign : SignRequest → SignedCert)
    (secretKeySign : AssertionClaims → String) (publicKey domain oauthUrl : String)
    (st : MintSessionToken) : String :=
  let res := sign (mintSignRequest publicKey domain st)
  let assertion := secretKeySign (mintAssertionClaims now oauthUrl)
  res.cert ++ "~" ++ assertion

/-- A sequence of VerifyCode requests by the same session principal: each run
feeds the Token Store slot it leaves behind into the next. -/
def verifyMany (check : String → String → Bool) (st : SessionToken)
    (codes : List String) (store : TotpStore) : TotpStore :=
  codes.foldl (fun s c => (verifyRoute true check st c s).store) store

/-! ## Claim theorems -/

/-- C1: with a verified session (no `tokenVerificationId`), Exists reports
`exists=false` when no TotpToken is stored; an unverified stored TotpToken is
deleted as a side effect and reported `exists=false` (in particular Create
immediately followed by Exists yields `exists=false` and leaves the store
empty); a verified stored TotpToken is reported `exists=true` with the store
untouched. -/
theorem totp_exists_spec (st : SessionToken) (h : st.tokenVerificationId = none) :
    ((existsRoute st none).result = .ok false ∧ (existsRoute st none).store = none)
    ∧ (∀ t : TotpToken, t.verified = false →
        (existsRoute st (some t)).result = .ok false ∧ (existsRoute st (some t)).store = none)
    ∧ (∀ t : TotpToken, t.verified = true →
        (existsRoute st (some t)).result = .ok true ∧ (existsRoute st (some t)).store = some t)
    ∧ (∀ (qr : String → String) (secret : String) (store : TotpStore),
        (existsRoute st (createRoute true qr st secret store).store).result = .ok false
        ∧ (existsRoute st (createRoute true qr st secret store).store).store = none) := by
  refine ⟨?_, ?_, ?_, ?_⟩
  · simp [existsRoute, dbTotpToken, h]
  · intro t ht
    simp [existsRoute, dbTotpToken, dbDeleteTotpToken, h, ht, Except.map]
  · intro t ht
    simp [existsRoute, dbTotpToken, h, ht]
  · intro qr secret store
    simp [existsRoute, createRoute, dbTotpToken, dbDeleteTotpToken, h, Except.map]

/-- C1 witness: a concrete verified session observing an unverified stored
TotpToken self-heals it. -/
theorem totp_exists_spec_witness :
    (existsRoute ⟨"sid", "uid", "a@b.c", none⟩ (some ⟨"sec", false, false, 0⟩)).result = .ok false
    ∧ (existsRoute ⟨"sid", "uid", "a@b.c", none⟩ (some ⟨"sec", false, false, 0⟩)).store = none :=
  (totp_exists_spec ⟨"sid", "uid", "a@b.c", none⟩ rfl).2.1 ⟨"sec", false, false, 0⟩ rfl

/-- C2: VerifyCode on a stored TotpToken updates the row if and only if the
code checks valid and the row was unverified, in which case both flags are set
true in the single update; an invalid code leaves the row unchanged (also
under arbitrarily many repeated invalid attempts) and yields the normal
`success=false` result; a valid code yields `success=true`. -/
theorem totp_verify_code_spec (check : String → String → Bool)
    (st : SessionToken) (code : String) (t : TotpToken) :
    ((verifyRoute true check st code (some t)).result = .ok (check code t.sharedSecret))
    ∧ (Event.dbUpdateTotpToken ∈ (verifyRoute true check st code (some t)).trace
        ↔ (check code t.sharedSecret = true ∧ t.verified = false))
    ∧ (check code t.sharedSecret = true ∧ t.verified = false →
        (verifyRoute true check st code (some t)).store
          = some { t with verified := true, enabled := true })
    ∧ (check code t.sharedSecret = false →
        (verifyRoute true check st code (some t)).store = some t)
    ∧ (∀ codes : List String, (∀ c ∈ codes, check c t.sharedSecret = false) →
        verifyMany check st codes (some t) = some t) := by
  refine ⟨?_, ?_, ?_, ?_, ?_⟩
  · simp [verifyRoute, dbTotpToken]
  · cases hc : check code t.sharedSecret <;> cases htv : t.verified <;>
      cases hsome : (st.tokenVerificationId).isSome <;>
      simp [verifyRoute, dbTotpToken, hc, htv, hsome]
  · intro hv
    simp [verifyRoute, dbTotpToken, hv]
  · intro hv
    simp [verifyRoute, dbTotpToken, hv]
  · intro codes hcodes
    induction codes with
    | nil => rfl
    | cons c cs ih =>
      have hc : check c t.sharedSecret = false := hcodes c (List.mem_cons_self c cs)
      have hstep : (verifyRoute true check st c (some t)).store = some t := by
        simp [verifyRoute, dbTotpToken, hc]
      simp only [verifyMany, List.foldl_cons] at *
      rw [hstep]
      exact ih (fun d hd => hcodes d (List.mem_cons_of_mem c hd))

/-- C2 witness: a concrete invalid attempt leaves a concrete row unchanged and
reports `success=false`; the matching code on the unverified row flips both
flags. -/
theorem totp_verify_code_spec_witness :
    ((verifyRoute true (fun c s => c == s) ⟨"sid", "uid", "a@b.c", none⟩ "bad"
        (some ⟨"sec", false, false, 0⟩)).result = .ok false
      ∧ (verifyRoute true (fun c s => c == s) ⟨"sid", "uid", "a@b.c", none⟩ "bad"
        (some ⟨"sec", false, false, 0⟩)).store = some ⟨"sec", false, false, 0⟩)
    ∧ (verifyRoute true (fun c s => c == s) ⟨"sid", "uid", "a@b.c", none⟩ "sec"
        (some ⟨"sec", false, false, 0⟩)).store = some ⟨"sec", true, true, 0⟩ := by
  have hbad := totp_verify_code_spec (fun c s => c == s) ⟨"sid", "uid", "a@b.c", none⟩
    "bad" ⟨"sec", false, false, 0⟩
  have hgood := totp_verify_code_spec (fun c s => c == s) ⟨"sid", "uid", "a@b.c", none⟩
    "sec" ⟨"sec", false, false, 0⟩
  refine ⟨⟨?_, hbad.2.2.2.1 (by decide)⟩, hgood.2.2.1 (by decide)⟩
  have := hbad.1
  simpa using this

/-- C3: VerifyCode issues the session-verification call, and it is exactly
`verifyTokensWithMethod(sessionToken.id, 'totp-2fa')`, if and only if the code
checks valid and the principal carries a `tokenVerificationId`; otherwise no
session-verification call appears in the run. -/
theorem totp_verify_session_spec (check : String → String → Bool)
    (st : SessionToken) (code : String) (t : TotpToken) :
    ∀ (tid m : String),
      Event.dbVerifyTokensWithMethod tid m ∈ (verifyRoute true check st code (some t)).trace
        ↔ (tid = st.id ∧ m = "totp-2fa" ∧ check code t.sharedSecret = true
            ∧ (st.tokenVerificationId).isSome = true) := by
  intro tid m
  cases hc : check code t.sharedSecret <;> cases htv : t.verified <;>
    cases hsome : (st.tokenVerificationId).isSome <;>
    simp [verifyRoute, dbTotpToken, hc, htv, hsome, and_assoc, eq_comm]

/-- C3 witness: a concrete valid code on a pending session produces exactly the
`totp-2fa` session-verification call; the same session with an invalid code
produces none. -/
theorem totp_verify_session_spec_witness :
    (Event.dbVerifyTokensWithMethod "sid" "totp-2fa"
      ∈ (verifyRoute true (fun c s => c == s) ⟨"sid", "uid", "a@b.c", some "tvid"⟩ "sec"
          (some ⟨"sec", true, true, 0⟩)).trace)
    ∧ ¬ (Event.dbVerifyTokensWithMethod "sid" "totp-2fa"
      ∈ (verifyRoute true (fun c s => c == s) ⟨"sid", "uid", "a@b.c", some "tvid"⟩ "bad"
          (some ⟨"sec", true, true, 0⟩)).trace) := by
  constructor
  · exact (totp_verify_session_spec (fun c s => c == s) ⟨"sid", "uid", "a@b.c", some "tvid"⟩
      "sec" ⟨"sec", true, true, 0⟩ "sid" "totp-2fa").mpr ⟨rfl, rfl, by decide, by decide⟩
  · intro hmem
    have := (totp_verify_session_spec (fun c s => c == s) ⟨"sid", "uid", "a@b.c", some "tvid"⟩
      "bad" ⟨"sec", true, true, 0⟩ "sid" "totp-2fa").mp hmem
    exact absurd this.2.2.1 (by decide)

/-- C4 counterexample: the claim quantifies over all four TOTP operations, but
the VerifyCode handler has no unverified-session guard: with a principal whose
`tokenVerificationId` is set, a concrete VerifyCode run does not fail with the
unverified-session failure — it completes normally and even mutates the Token
Store (the row's flags are set). -/
theorem totp_unverified_session_guard_cex :
    (verifyRoute true (fun c s => c == s) ⟨"sid", "uid", "a@b.c", some "tvid"⟩ "sec"
        (some ⟨"sec", false, false, 0⟩)).result ≠ .error .unverifiedSession
    ∧ (verifyRoute true (fun c s => c == s) ⟨"sid", "uid", "a@b.c", some "tvid"⟩ "sec"
        (some ⟨"sec", false, false, 0⟩)).result = .ok true
    ∧ (verifyRoute true (fun c s => c == s) ⟨"sid", "uid", "a@b.c", some "tvid"⟩ "sec"
        (some ⟨"sec", false, false, 0⟩)).store = some ⟨"sec", true, true, 0⟩ := by
  refine ⟨?_, ?_, ?_⟩ <;> decide

/-- C4 amended: for Create, Destroy and Exists (with the preceding rate-limit
check passing where one exists), a session principal carrying a
`tokenVerificationId` fails with the distinct unverified-session failure and
the Token Store is neither read nor mutated; VerifyCode performs no such
guard. -/
theorem totp_unverified_session_guard (st : SessionToken) (v : String)
    (h : st.tokenVerificationId = some v) :
    (∀ (qr : String → String) (secret : String) (store : TotpStore),
      (createRoute true qr st secret store).result = .error .unverifiedSession
      ∧ (createRoute true qr st secret store).store = store
      ∧ (createRoute true qr st secret store).trace = [.customsCheck "totpCreate"])
    ∧ (∀ store : TotpStore,
      (destroyRoute true st store).result = .error .unverifiedSession
      ∧ (destroyRoute true st store).store = store
      ∧ (destroyRoute true st store).trace = [.customsCheck "totpDestroy"])
    ∧ (∀ store : TotpStore,
      (existsRoute st store).result = .error .unverifiedSession
      ∧ (existsRoute st store).store = store
      ∧ (existsRoute st store).trace = []) := by
  refine ⟨fun qr secret store => ?_, fun store => ?_, fun store => ?_⟩ <;>
    simp [createRoute, destroyRoute, existsRoute, h]

/-- C4 witness: a concrete pending session is rejected by Create, Destroy and
Exists without any store event. -/
theorem totp_unverified_session_guard_witness :
    (createRoute true (fun _ => "qr") ⟨"sid", "uid", "a@b.c", some "tvid"⟩ "sec"
        none).result = .error .unverifiedSession
    ∧ (destroyRoute true ⟨"sid", "uid", "a@b.c", some "tvid"⟩ none).result
        = .error .unverifiedSession
    ∧ (existsRoute ⟨"sid", "uid", "a@b.c", some "tvid"⟩ none).trace = [] := by
  have h := totp_unverified_session_guard ⟨"sid", "uid", "a@b.c", some "tvid"⟩ "tvid" rfl
  exact ⟨(h.1 (fun _ => "qr") "sec" none).1, (h.2.1 none).1, (h.2.2 none).2.2⟩

/-- C5 counterexample: the claim quantifies over all four TOTP operations, but
the Exists handler performs no customs rate-limit check at all: a concrete
Exists run reads (and here even deletes from) the Token Store while its event
trace contains no customs check. -/
theorem totp_customs_order_cex :
    (existsRoute ⟨"sid", "uid", "a@b.c", none⟩ (some ⟨"sec", false, false, 0⟩)).trace
      = [.dbGetTotpToken, .dbDeleteTotpToken]
    ∧ (existsRoute ⟨"sid", "uid", "a@b.c", none⟩ (some ⟨"sec", false, false, 0⟩)).result
      = .ok false := by
  refine ⟨?_, ?_⟩ <;> decide

/-- C5 amended: Create, Destroy and VerifyCode each issue the customs
rate-limit check as their first event, and a customs failure short-circuits
the run — the result is the rate-limit failure, the Token Store slot is
untouched, and no store or telemetry event is emitted; Exists, by contrast,
never issues a customs check. -/
theorem totp_customs_order (st : SessionToken) (store : TotpStore)
    (qr : String → String) (secret code : String)
    (check : String → String → Bool) :
    (∀ customsOk : Bool,
      (createRoute customsOk qr st secret store).trace.head? = some (.customsCheck "totpCreate")
      ∧ (destroyRoute customsOk st store).trace.head? = some (.customsCheck "totpDestroy")
      ∧ (verifyRoute customsOk check st code store).trace.head?
          = some (.customsCheck "sessionVerifyTotp"))
    ∧ ((createRoute false qr st secret store).result = .error .rateLimited
      ∧ (createRoute false qr st secret store).store = store
      ∧ (createRoute false qr st secret store).trace = [.customsCheck "totpCreate"])
    ∧ ((destroyRoute false st store).result = .error .rateLimited
      ∧ (destroyRoute false st store).store = store
      ∧ (destroyRoute false st store).trace = [.customsCheck "totpDestroy"])
    ∧ ((verifyRoute false check st code store).result = .error .rateLimited
      ∧ (verifyRoute false check st code store).store = store
      ∧ (verifyRoute false check st code store).trace = [.customsCheck "sessionVerifyTotp"])
    ∧ (∀ action : String, Event.customsCheck action ∉ (existsRoute st store).trace) := by
  refine ⟨fun customsOk => ⟨?_, ?_, ?_⟩, ?_, ?_, ?_, fun action => ?_⟩
  · cases customsOk <;>
      cases hsome : (st.tokenVerificationId).isSome <;>
      simp [createRoute, hsome]
  · cases customsOk <;>
      cases hsome : (st.tokenVerificationId).isSome <;>
      simp [destroyRoute, dbDeleteTotpToken, hsome]
  · cases customsOk <;> cases store <;>
      simp [verifyRoute, dbTotpToken]
  · simp [createRoute]
  · simp [destroyRoute]
  · simp [verifyRoute]
  · cases hsome : (st.tokenVerificationId).isSome <;> cases store with
    | none => simp [existsRoute, dbTotpToken, hsome]
    | some t =>
      cases htv : t.verified <;>
        simp [existsRoute, dbTotpToken, dbDeleteTotpToken, hsome, htv]

/-- C5 witness: with a concrete failing customs check, Create short-circuits
before touching the store; the concrete Exists trace has no customs event. -/
theorem totp_customs_order_witness :
    (createRoute false (fun _ => "qr") ⟨"sid", "uid", "a@b.c", none⟩ "sec" none).result
      = .error .rateLimited
    ∧ Event.customsCheck "totpExists"
        ∉ (existsRoute ⟨"sid", "uid", "a@b.c", none⟩ none).trace := by
  have h := totp_customs_order ⟨"sid", "uid", "a@b.c", none⟩ none (fun _ => "qr")
    "sec" "000000" (fun c s => c == s)
  exact ⟨h.2.1.1, h.2.2.2.2 "totpExists"⟩

/-- C6: Destroy with a verified session never produces a caller-visible error
even when no TotpToken exists — the store delete resolves as success and the
handler replies with the empty success body — so calling Destroy twice in a
row succeeds both times. -/
theorem totp_destroy_idempotent (st : SessionToken)
    (h : st.tokenVerificationId = none) :
    (∀ store : TotpStore,
      (destroyRoute true st store).result = .ok () ∧ (destroyRoute true st store).store = none)
    ∧ (∀ store : TotpStore,
      (destroyRoute true st (destroyRoute true st store).store).result = .ok ()) := by
  refine ⟨fun store => ?_, fun store => ?_⟩ <;>
    simp [destroyRoute, dbDeleteTotpToken, h]

/-- C6 witness: a concrete double Destroy on an empty store succeeds twice. -/
theorem totp_destroy_idempotent_witness :
    (destroyRoute true ⟨"sid", "uid", "a@b.c", none⟩ none).result = .ok ()
    ∧ (destroyRoute true ⟨"sid", "uid", "a@b.c", none⟩
        (destroyRoute true ⟨"sid", "uid", "a@b.c", none⟩ none).store).result = .ok () :=
  ⟨((totp_destroy_idempotent ⟨"sid", "uid", "a@b.c", none⟩ rfl).1 none).1,
    (totp_destroy_idempotent ⟨"sid", "uid", "a@b.c", none⟩ rfl).2 none⟩

/-- Modelled from the spec: the db layer's rejection for a token id that is
absent from the store is not among the provided source files; per the spec,
"Not-found is reported as authentication failure, not a system error" — an
invalid-token failure handed to `cb` unchanged by `makeCredentialFn`. -/
def dbLookupMissErr : CredOutcome :=
  .invalidTokenErr "The authentication token could not be found"

/-- C7: a well-formed id resolving to a token that is expired at the current
time yields the invalid/expired-token failure; when the expired token's kind is
`sessionToken` the store prune is attempted first and its outcome is ignored
(the run is literally independent of the prune result); other kinds are not
pruned. -/
theorem credential_expired_prune_spec (now : Int)
    (lookup : String → Option AuthToken) (lookupErr : CredOutcome)
    (pruneOk : Bool) (id : String) (token : AuthToken)
    (hhex : hexStringTest id = true) (hlook : lookup id = some token)
    (hexp : token.expired now = true) :
    (makeCredentialFn now lookup lookupErr pruneOk id).outcome
      = .invalidTokenErr "The authentication token has expired"
    ∧ (token.tokenTypeID = "sessionToken" →
        (makeCredentialFn now lookup lookupErr pruneOk id).trace
          = [.dbGetToken id, .pruneSessionTokens token.uid])
    ∧ (token.tokenTypeID ≠ "sessionToken" →
        (makeCredentialFn now lookup lookupErr pruneOk id).trace = [.dbGetToken id])
    ∧ (∀ pruneOk' : Bool,
        makeCredentialFn now lookup lookupErr pruneOk' id
          = makeCredentialFn now lookup lookupErr pruneOk id) := by
  refine ⟨?_, fun hkind => ?_, fun hkind => ?_, fun pruneOk' => ?_⟩ <;>
    cases hk : token.tokenTypeID == "sessionToken" <;>
    simp_all [makeCredentialFn, hhex, hlook, hexp]

/-- C7 witness: a concrete expired session token is reported expired with the
prune attempted, and the run is the same whether the prune succeeds or fails. -/
theorem credential_expired_prune_spec_witness :
    (makeCredentialFn 10
      (fun _ => some ⟨"0123456789abcdef0123456789abcdef0123456789abcdef0123456789abcdef",
        "uid", "sessionToken", some 5⟩) dbLookupMissErr true
      "0123456789abcdef0123456789abcdef0123456789abcdef0123456789abcdef").outcome
      = .invalidTokenErr "The authentication token has expired"
    ∧ (makeCredentialFn 10
      (fun _ => some ⟨"0123456789abcdef0123456789abcdef0123456789abcdef0123456789abcdef",
        "uid", "sessionToken", some 5⟩) dbLookupMissErr true
      "0123456789abcdef0123456789abcdef0123456789abcdef0123456789abcdef").trace
      = [.dbGetToken "0123456789abcdef0123456789abcdef0123456789abcdef0123456789abcdef",
         .pruneSessionTokens "uid"] := by
  have h := credential_expired_prune_spec 10
    (fun _ => some ⟨"0123456789abcdef0123456789abcdef0123456789abcdef0123456789abcdef",
      "uid", "sessionToken", some 5⟩) dbLookupMissErr true
    "0123456789abcdef0123456789abcdef0123456789abcdef0123456789abcdef"
    ⟨"0123456789abcdef0123456789abcdef0123456789abcdef0123456789abcdef",
      "uid", "sessionToken", some 5⟩ (by decide) rfl (by decide)
  exact ⟨h.1, h.2.1 rfl⟩

/-- C8: a malformed id, an id absent from the store, and a present-but-expired
token all surface to the caller as the same generic authentication failure
class — never a format error — so the three cases are indistinguishable. -/
theorem credential_indistinguishable_failures (now : Int)
    (lookup : String → Option AuthToken) (pruneOk : Bool)
    (idMalformed idMissing idExpired : String) (token : AuthToken)
    (h1 : hexStringTest idMalformed = false)
    (h2 : hexStringTest idMissing = true) (h2m : lookup idMissing = none)
    (h3 : hexStringTest idExpired = true) (h3l : lookup idExpired = some token)
    (h3e : token.expired now = true) :
    callerClass (makeCredentialFn now lookup dbLookupMissErr pruneOk idMalformed).outcome
      = .authFailure
    ∧ callerClass (makeCredentialFn now lookup dbLookupMissErr pruneOk idMissing).outcome
      = .authFailure
    ∧ callerClass (makeCredentialFn now lookup dbLookupMissErr pruneOk idExpired).outcome
      = .authFailure
    ∧ (∀ id : String,
        callerClass (makeCredentialFn now lookup dbLookupMissErr pruneOk id).outcome
          ≠ .formatError) := by
  refine ⟨?_, ?_, ?_, fun id => ?_⟩
  · simp [makeCredentialFn, h1, callerClass]
  · simp [makeCredentialFn, h2, h2m, callerClass, dbLookupMissErr]
  · cases hk : token.tokenTypeID == "sessionToken" <;>
      simp [makeCredentialFn, h3, h3l, h3e, hk, callerClass]
  · unfold makeCredentialFn
    split
    · simp [callerClass]
    · cases hl : lookup id with
      | none => simp [hl, callerClass, dbLookupMissErr]
      | some tk =>
        cases he : tk.expired now <;> cases hk : tk.tokenTypeID == "sessionToken" <;>
          simp [hl, he, hk, callerClass]

/-- C8 witness: a concrete malformed id, a concrete missing id and a concrete
expired token all yield the authentication-failure class. -/
theorem credential_indistinguishable_failures_witness :
    callerClass (makeCredentialFn 10
      (fun i => if i = "ffffffffffffffffffffffffffffffffffffffffffffffffffffffffffffffff"
        then some ⟨"ffffffffffffffffffffffffffffffffffffffffffffffffffffffffffffffff",
          "uid", "sessionToken", some 5⟩ else none)
      dbLookupMissErr true "zz").outcome = .authFailure
    ∧ callerClass (makeCredentialFn 10
      (fun i => if i = "ffffffffffffffffffffffffffffffffffffffffffffffffffffffffffffffff"
        then some ⟨"ffffffffffffffffffffffffffffffffffffffffffffffffffffffffffffffff",
          "uid", "sessionToken", some 5⟩ else none)
      dbLookupMissErr true
      "0000000000000000000000000000000000000000000000000000000000000000").outcome
      = .authFailure
    ∧ callerClass (makeCredentialFn 10
      (fun i => if i = "ffffffffffffffffffffffffffffffffffffffffffffffffffffffffffffffff"
        then some ⟨"ffffffffffffffffffffffffffffffffffffffffffffffffffffffffffffffff",
          "uid", "sessionToken", some 5⟩ else none)
      dbLookupMissErr true
      "ffffffffffffffffffffffffffffffffffffffffffffffffffffffffffffffff").outcome
      = .authFailure := by
  have h := credential_indistinguishable_failures 10
    (fun i => if i = "ffffffffffffffffffffffffffffffffffffffffffffffffffffffffffffffff"
      then some ⟨"ffffffffffffffffffffffffffffffffffffffffffffffffffffffffffffffff",
        "uid", "sessionToken", some 5⟩ else none)
    true "zz" "0000000000000000000000000000000000000000000000000000000000000000"
    "ffffffffffffffffffffffffffffffffffffffffffffffffffffffffffffffff"
    ⟨"ffffffffffffffffffffffffffffffffffffffffffffffffffffffffffffffff",
      "uid", "sessionToken", some 5⟩
    (by decide) (by decide) (by decide) (by decide) rfl (by decide)
  exact ⟨h.1, h.2.1, h.2.2.1⟩

/-- C9: the generated bundle is exactly `<certificate>~<assertion>` with both
halves non-empty (the Signer and the local JWT signer produce non-empty
strings), and the expiry asserted for the assertion half — the current time
plus the fixed 25-year assertion lifetime — is strictly greater than the
certificate half's expiry, which is bounded by issuance plus the fixed 5-hour
certificate lifetime requested in the sign request. -/
theorem oauth_assertion_bundle_spec (now : Int) (sign : SignRequest → SignedCert)
    (secretKeySign : AssertionClaims → String) (publicKey domain oauthUrl : String)
    (st : MintSessionToken)
    (hc : (sign (mintSignRequest publicKey domain st)).cert ≠ "")
    (ha : secretKeySign (mintAssertionClaims now oauthUrl) ≠ "")
    (hexp : (sign (mintSignRequest publicKey domain st)).certExp ≤ now + CERT_LIFETIME) :
    generateOAuthAssertion now sign secretKeySign publicKey domain oauthUrl st
      = (sign (mintSignRequest publicKey domain st)).cert ++ "~"
        ++ secretKeySign (mintAssertionClaims now oauthUrl)
    ∧ (sign (mintSignRequest publicKey domain st)).cert ≠ ""
    ∧ secretKeySign (mintAssertionClaims now oauthUrl) ≠ ""
    ∧ (mintAssertionClaims now oauthUrl).exp
        > (sign (mintSignRequest publicKey domain st)).certExp
    ∧ (mintSignRequest publicKey domain st).duration = CERT_LIFETIME := by
  refine ⟨rfl, hc, ha, ?_, rfl⟩
  have h : (mintAssertionClaims now oauthUrl).exp = now + ASSERTION_LIFETIME := rfl
  rw [h]
  simp only [ASSERTION_LIFETIME, CERT_LIFETIME] at hexp ⊢
  omega

/-- C9 witness: concrete signer outputs produce the concrete bundle with the
assertion expiry strictly above the certificate expiry. -/
theorem oauth_assertion_bundle_spec_witness :
    generateOAuthAssertion 0 (fun _ => ⟨"CERT", 100⟩) (fun _ => "ASSERT")
      "pk" "example.com" "https://oauth.example.com"
      ⟨"ab12", 7, 3, "a@b.c"⟩ = "CERT~ASSERT"
    ∧ (mintAssertionClaims 0 "https://oauth.example.com").exp > 100 := by
  have h := oauth_assertion_bundle_spec 0 (fun _ => ⟨"CERT", 100⟩) (fun _ => "ASSERT")
    "pk" "example.com" "https://oauth.example.com" ⟨"ab12", 7, 3, "a@b.c"⟩
    (by decide) (by decide) (by norm_num [CERT_LIFETIME])
  exact ⟨h.1, h.2.2.2.1⟩

/-- C10: the hawk nonce function accepts every (key, nonce, timestamp)
combination — the continuation is always invoked with no error, so a repeated
nonce is never rejected and no replay protection exists at this layer — and
the run consists only of logging the observed clock skew
`now / 1000 - ts`. -/
theorem nonce_check_spec (now : Int) (key nonce : String) (ts : Int) :
    (nonceCheck now key nonce ts).callbackErr = none
    ∧ (nonceCheck now key nonce ts).loggedSkew = (now : ℚ) / 1000 - (ts : ℚ)
    ∧ (∀ (now₂ ts₂ : Int) (key₂ nonce₂ : String),
        (nonceCheck now₂ key₂ nonce₂ ts₂).callbackErr = none) :=
  ⟨rfl, rfl, fun _ _ _ _ => rfl⟩

end FxA
